import Mathlib

set_option maxRecDepth 100000

set_option maxHeartbeats 1000000

/-!
Verification of the Monte Carlo dividend/margin simulation engine
(`src/strategies/dividend_margin_monte_carlo.py`).

The engine is embedded shallowly over the rationals: every money amount,
return and rate is a `Rat`, the Gaussian draws of the return generator are
represented in location-scale form (a draw `normal(mu, sigma)` becomes
`mu + sigma * z` for an explicit standard-normal sample `z`), and the
28-month state walk of `run_single_scenario` is a fold of a per-month step
function over an explicit state record.
-/

/-- The five income buckets of Layer 2 (keys of `self.bucket_allocations`). -/
inductive Bucket where
  | jpmorgan_income
  | cef_stable
  | covered_call_etfs
  | yieldmax
  | drip_v2_cefs
deriving DecidableEq

/-- `list(self.bucket_allocations.keys())` — the iteration order of the bucket
dictionaries in the source. -/
def bucket_names : List Bucket :=
  [.jpmorgan_income, .cef_stable, .covered_call_etfs, .yieldmax, .drip_v2_cefs]

/-- The attribute set a `DividendMarginMonteCarlo` instance carries (the fields
of `__init__` that the simulator, the bucket-return draw and the analyzer read).
The margin schedule mirrors the `range`-keyed dictionary as
`(start, stop, amount)` triples with Python `range` semantics
(`start <= month < stop`). -/
structure DividendMarginMonteCarlo where
  bucket_allocations : Bucket → ℚ
  bucket_yields : Bucket → ℚ
  bucket_volatility : Bucket → ℚ
  layer2_deployment : ℚ
  googl_monthly_diversion : ℚ
  layer3_deployment : ℚ
  simulation_months : ℕ
  margin_schedule : List (ℕ × ℕ × ℚ)
  margin_rate : ℚ
  min_portfolio_margin_ratio : ℚ
  business_income_backstop : ℚ
  yield_degradation_rate : ℚ
  active_management : Bool
  yield_recovery_on_rotation : ℚ

/-- Embedding of `DividendMarginMonteCarlo.__init__` (lines 22-103): the
constructor takes no parameters, performs no validation and never raises; it
only assigns these constants. -/
def mcInit : DividendMarginMonteCarlo where
  bucket_allocations := fun b =>
    match b with
    | .jpmorgan_income => 0.27
    | .cef_stable => 0.20
    | .covered_call_etfs => 0.35
    | .yieldmax => 0.10
    | .drip_v2_cefs => 0.08
  bucket_yields := fun b =>
    match b with
    | .jpmorgan_income => 0.09
    | .cef_stable => 0.21
    | .covered_call_etfs => 0.16
    | .yieldmax => 0.70
    | .drip_v2_cefs => 0.09
  bucket_volatility := fun b =>
    match b with
    | .jpmorgan_income => 0.069
    | .cef_stable => 0.150
    | .covered_call_etfs => 0.135
    | .yieldmax => 0.450
    | .drip_v2_cefs => 0.120
  layer2_deployment := 11517
  googl_monthly_diversion := 1000
  layer3_deployment := 800
  simulation_months := 28
  margin_schedule := [(1, 7, 4500), (7, 13, 6213), (13, 29, 8000)]
  margin_rate := 0.11825
  min_portfolio_margin_ratio := 3
  business_income_backstop := 22000
  yield_degradation_rate := 0.15
  active_management := true
  yield_recovery_on_rotation := 0.12

/-- `self.target_yield` — the allocation-weighted blended target yield
(lines 62-65). -/
def target_yield (c : DividendMarginMonteCarlo) : ℚ :=
  (bucket_names.map (fun b => c.bucket_allocations b * c.bucket_yields b)).sum

/-- `self.margin_monthly_rate = self.margin_rate / 12` (line 90). -/
def margin_monthly_rate (c : DividendMarginMonteCarlo) : ℚ :=
  c.margin_rate / 12

/-- `get_margin_draw` (lines 105-110): first schedule entry whose range holds
the month, else 0. -/
def get_margin_draw (c : DividendMarginMonteCarlo) (month : ℕ) : ℚ :=
  match c.margin_schedule.find? (fun e => decide (e.1 ≤ month) && decide (month < e.2.1)) with
  | some e => e.2.2
  | none => 0

/-- `calculate_monthly_yield` (lines 112-128): linear degradation from the
blended target yield, with the active-management recovery rule from month 7
onward. -/
def calculate_monthly_yield (c : DividendMarginMonteCarlo) (month : ℕ) : ℚ :=
  let start_yield := target_yield c
  let end_yield := start_yield * (1 - c.yield_degradation_rate)
  let degradation_per_month := (start_yield - end_yield) / (c.simulation_months : ℚ)
  let current_yield := start_yield - degradation_per_month * ((month : ℚ) - 1)
  if c.active_management ∧ 6 < month then
    let yield_decline := (target_yield c - current_yield) / target_yield c
    if 0.15 < yield_decline then
      let recovery := target_yield c * c.yield_recovery_on_rotation
      min (target_yield c) (current_yield + recovery)
    else current_yield
  else current_yield

/-- One scenario slice of the return tensors built by `simulate_market_returns`
(`layer1_returns[idx]`, `bucket_returns[idx]`, ...): month index 0..27 to the
month's simple return. -/
structure ScenarioReturns where
  layer1_returns : ℕ → ℚ
  bucket_returns : ℕ → Bucket → ℚ
  googl_returns : ℕ → ℚ
  hedge_returns : ℕ → ℚ
  market_returns : ℕ → ℚ

/-- The mutable locals of `run_single_scenario` (lines 245-267): layer values,
margin balance, tracking scalars and the month-by-month recorded series. -/
structure SimState where
  layer1_portfolio : ℚ
  income_portfolio : ℚ
  googl_position : ℚ
  hedge_position : ℚ
  margin_balance : ℚ
  total_dividends_collected : ℚ
  max_drawdown : ℚ
  peak_total_value : ℚ
  margin_call_triggered : Bool
  backstop_used : Bool
  backstop_amount_used : ℚ
  monthly_portfolio : List ℚ
  monthly_layer1 : List ℚ
  monthly_layer2 : List ℚ
  monthly_margin : List ℚ
  monthly_dividends : List ℚ
  monthly_googl : List ℚ
  monthly_hedge : List ℚ

/-- Initial state of a scenario walk (lines 245-267, Jan 2 2026 values). -/
def initState : SimState where
  layer1_portfolio := 170073
  income_portfolio := 61725
  googl_position := 1876
  hedge_position := 13199
  margin_balance := 3222
  total_dividends_collected := 0
  max_drawdown := 0
  peak_total_value := 0
  margin_call_triggered := false
  backstop_used := false
  backstop_amount_used := 0
  monthly_portfolio := []
  monthly_layer1 := []
  monthly_layer2 := []
  monthly_margin := []
  monthly_dividends := []
  monthly_googl := []
  monthly_hedge := []

/-- The repeated pattern of step 2 (lines 289-314): multiply a positive layer
value by `(1 + return)` and floor at 0; a zero layer is left untouched. -/
def apply_layer_return (value ret : ℚ) : ℚ :=
  if 0 < value then max 0 (value * (1 + ret)) else value

/-- Step 5 (lines 335-342): borrow the shortfall, or pay the margin down with
the excess dividend floored at 0. -/
def margin_draw_update (margin_balance monthly_dividend margin_draw : ℚ) : ℚ :=
  if monthly_dividend < margin_draw then
    margin_balance + (margin_draw - monthly_dividend)
  else
    max 0 (margin_balance - (monthly_dividend - margin_draw))

/-- Step 6 (lines 347-349): accrue one month of interest on a positive
balance. -/
def margin_interest_update (c : DividendMarginMonteCarlo) (margin_balance : ℚ) : ℚ :=
  if 0 < margin_balance then margin_balance + margin_balance * margin_monthly_rate c
  else margin_balance

/-- Output of the safety-threshold check of step 7. -/
structure SafetyOut where
  margin_call_triggered : Bool
  backstop_used : Bool
  margin_balance : ℚ
  backstop_amount_used : ℚ

/-- Step 7 (lines 355-365): on a positive post-interest balance whose
portfolio:margin ratio is below the configured minimum, set both flags and
inject `min(backstop, balance)`; otherwise leave everything unchanged. -/
def safety_check (c : DividendMarginMonteCarlo) (total_portfolio_value margin_balance : ℚ)
    (margin_call_triggered backstop_used : Bool) (backstop_amount_used : ℚ) : SafetyOut :=
  if 0 < margin_balance ∧ total_portfolio_value / margin_balance < c.min_portfolio_margin_ratio then
    let injection := min c.business_income_backstop margin_balance
    { margin_call_triggered := true
      backstop_used := true
      margin_balance := margin_balance - injection
      backstop_amount_used := backstop_amount_used + injection }
  else
    { margin_call_triggered := margin_call_triggered
      backstop_used := backstop_used
      margin_balance := margin_balance
      backstop_amount_used := backstop_amount_used }

/-- Step 8 (lines 370-378): most negative drawdown seen so far, measured
against the running peak (only once a positive peak exists). -/
def drawdown_update (max_drawdown peak_total_value total_portfolio_value : ℚ) : ℚ :=
  if 0 < peak_total_value then
    let current_drawdown := (total_portfolio_value - peak_total_value) / peak_total_value
    if current_drawdown < max_drawdown then current_drawdown else max_drawdown
  else max_drawdown

/-- One iteration of the month loop of `run_single_scenario`
(lines 269-391), in the source's order: deploy capital, apply returns with
floors, total the portfolio, collect the dividend, draw/pay margin, accrue
interest, run the safety check, track drawdown and record the month. -/
def month_step (c : DividendMarginMonteCarlo) (r : ScenarioReturns) (month : ℕ)
    (s : SimState) : SimState :=
  let income_deployed := s.income_portfolio + c.layer2_deployment
  let googl_deployed := s.googl_position + c.googl_monthly_diversion
  let hedge_deployed := s.hedge_position + c.layer3_deployment
  let layer1_portfolio := apply_layer_return s.layer1_portfolio (r.layer1_returns (month - 1))
  let weighted_return :=
    (bucket_names.map (fun b => c.bucket_allocations b * r.bucket_returns (month - 1) b)).sum
  let income_portfolio := apply_layer_return income_deployed weighted_return
  let googl_position := apply_layer_return googl_deployed (r.googl_returns (month - 1))
  let hedge_position := apply_layer_return hedge_deployed (r.hedge_returns (month - 1))
  let total_portfolio_value := layer1_portfolio + income_portfolio + googl_position + hedge_position
  let current_yield := calculate_monthly_yield c month
  let monthly_dividend := income_portfolio * (current_yield / 12)
  let total_dividends_collected := s.total_dividends_collected + monthly_dividend
  let margin_draw := get_margin_draw c month
  let margin_after_draw := margin_draw_update s.margin_balance monthly_dividend margin_draw
  let margin_after_interest := margin_interest_update c margin_after_draw
  let safety := safety_check c total_portfolio_value margin_after_interest
    s.margin_call_triggered s.backstop_used s.backstop_amount_used
  let max_drawdown := drawdown_update s.max_drawdown s.peak_total_value total_portfolio_value
  let peak_total_value := max s.peak_total_value total_portfolio_value
  { layer1_portfolio := layer1_portfolio
    income_portfolio := income_portfolio
    googl_position := googl_position
    hedge_position := hedge_position
    margin_balance := safety.margin_balance
    total_dividends_collected := total_dividends_collected
    max_drawdown := max_drawdown
    peak_total_value := peak_total_value
    margin_call_triggered := safety.margin_call_triggered
    backstop_used := safety.backstop_used
    backstop_amount_used := safety.backstop_amount_used
    monthly_portfolio := s.monthly_portfolio ++ [total_portfolio_value]
    monthly_layer1 := s.monthly_layer1 ++ [layer1_portfolio]
    monthly_layer2 := s.monthly_layer2 ++ [income_portfolio]
    monthly_margin := s.monthly_margin ++ [safety.margin_balance]
    monthly_dividends := s.monthly_dividends ++ [monthly_dividend]
    monthly_googl := s.monthly_googl ++ [googl_position]
    monthly_hedge := s.monthly_hedge ++ [hedge_position] }

/-- The `for month in range(1, self.simulation_months + 1)` loop. -/
def run_months (c : DividendMarginMonteCarlo) (r : ScenarioReturns) : SimState :=
  (List.range' 1 c.simulation_months).foldl (fun s month => month_step c r month s) initState

/-- Break-even scan (lines 407-413): first 1-based month whose dividend covers
that month's scheduled draw. -/
def find_break_even_aux (c : DividendMarginMonteCarlo) : ℕ → List ℚ → Option ℕ
  | _, [] => none
  | i, d :: rest =>
    if get_margin_draw c (i + 1) ≤ d then some (i + 1) else find_break_even_aux c (i + 1) rest

/-- `break_even_month` as computed from the recorded dividend series. -/
def find_break_even (c : DividendMarginMonteCarlo) (divs : List ℚ) : Option ℕ :=
  find_break_even_aux c 0 divs

/-- Margin payoff scan (lines 416-420): first month after the first whose
recorded balance is exactly 0. -/
def find_margin_payoff_aux : ℕ → List ℚ → Option ℕ
  | _, [] => none
  | i, m :: rest =>
    if m = 0 ∧ 0 < i then some (i + 1) else find_margin_payoff_aux (i + 1) rest

/-- `margin_payoff_month` as computed from the recorded margin series. -/
def find_margin_payoff (ms : List ℚ) : Option ℕ :=
  find_margin_payoff_aux 0 ms

/-- The per-scenario record returned by `run_single_scenario`
(lines 422-445). `final_margin_ratio` is `none` where the source reports
`float('inf')` (zero final balance). -/
structure ScenarioResult where
  final_portfolio_value : ℚ
  final_layer1_value : ℚ
  final_income_portfolio : ℚ
  final_googl_value : ℚ
  final_hedge_value : ℚ
  final_margin_balance : ℚ
  final_margin_ratio : Option ℚ
  final_annual_dividend : ℚ
  max_drawdown : ℚ
  margin_call_triggered : Bool
  backstop_used : Bool
  backstop_amount_used : ℚ
  break_even_month : Option ℕ
  margin_payoff_month : Option ℕ
  total_dividends_collected : ℚ
  monthly_portfolio : List ℚ
  monthly_layer1 : List ℚ
  monthly_layer2 : List ℚ
  monthly_margin : List ℚ
  monthly_dividends : List ℚ
  monthly_googl : List ℚ
  monthly_hedge : List ℚ

/-- The terminal-metric computation of `run_single_scenario` (lines 393-445):
converts the final walk state into the returned record. -/
def scenario_result (c : DividendMarginMonteCarlo) (s : SimState) : ScenarioResult :=
  let final_portfolio_value :=
    s.layer1_portfolio + s.income_portfolio + s.googl_position + s.hedge_position
  { final_portfolio_value := final_portfolio_value
    final_layer1_value := s.layer1_portfolio
    final_income_portfolio := s.income_portfolio
    final_googl_value := s.googl_position
    final_hedge_value := s.hedge_position
    final_margin_balance := s.margin_balance
    final_margin_ratio :=
      if 0 < s.margin_balance then some (final_portfolio_value / s.margin_balance) else none
    final_annual_dividend := s.monthly_dividends.getLastD 0 * 12
    max_drawdown := s.max_drawdown
    margin_call_triggered := s.margin_call_triggered
    backstop_used := s.backstop_used
    backstop_amount_used := s.backstop_amount_used
    break_even_month := find_break_even c s.monthly_dividends
    margin_payoff_month := find_margin_payoff s.monthly_margin
    total_dividends_collected := s.total_dividends_collected
    monthly_portfolio := s.monthly_portfolio
    monthly_layer1 := s.monthly_layer1
    monthly_layer2 := s.monthly_layer2
    monthly_margin := s.monthly_margin
    monthly_dividends := s.monthly_dividends
    monthly_googl := s.monthly_googl
    monthly_hedge := s.monthly_hedge }

/-- `run_single_scenario` (lines 225-445): the 28-month walk followed by the
terminal-metric computation. -/
def run_single_scenario (c : DividendMarginMonteCarlo) (r : ScenarioReturns) : ScenarioResult :=
  scenario_result c (run_months c r)

/-- `success_50k` of `analyze_results` (line 497):
`(df['final_annual_dividend'] >= 50000).sum() / len(df)`. -/
def probability_50k_income (rs : List ScenarioResult) : ℚ :=
  ((rs.countP fun row => decide (50000 ≤ row.final_annual_dividend)) : ℚ) / (rs.length : ℚ)

/-- `success_75k` of `analyze_results` (line 496). -/
def probability_75k_income (rs : List ScenarioResult) : ℚ :=
  ((rs.countP fun row => decide (75000 ≤ row.final_annual_dividend)) : ℚ) / (rs.length : ℚ)

/-- `success_100k` of `analyze_results` (line 495). -/
def probability_100k_income (rs : List ScenarioResult) : ℚ :=
  ((rs.countP fun row => decide (100000 ≤ row.final_annual_dividend)) : ℚ) / (rs.length : ℚ)

/-- The per-month draw for one income bucket (`simulate_market_returns`,
lines 198-205), in location-scale form: `z` is the standard-normal sample of
the month's `np.random.normal` call and `bucket_vol` is the already-scaled
monthly volatility of line 196. The fat-tail branch is
`normal(market_drift * 0.8, bucket_vol * 2.5)`; the standard branch is
`market_ret * correlation + normal(0, bucket_vol * (1 - correlation))` with
correlation 0.7. -/
def bucket_month_return (market_drift market_ret bucket_vol : ℚ) (fat_tail : Bool)
    (z : ℚ) : ℚ :=
  if fat_tail then market_drift * 0.8 + bucket_vol * 2.5 * z
  else market_ret * 0.7 + bucket_vol * (1 - 0.7) * z

/-- `np.random.random() < 0.05` (line 199): whether the yieldmax fat-tail
branch fires, for a uniform sample `u`. -/
def fat_tail_fires (u : ℚ) : Bool :=
  decide (u < 0.05)

/-- Mean of a location-scale Gaussian draw written as `fun z => mu + sigma * z`:
its value at `z = 0`. -/
def draw_mean (f : ℚ → ℚ) : ℚ := f 0

/-- Standard deviation of a location-scale Gaussian draw written as
`fun z => mu + sigma * z`: its slope `f 1 - f 0`. -/
def draw_std (f : ℚ → ℚ) : ℚ := f 1 - f 0

/-- The construction-time validity predicate the specification requires
(sections 7 and 8): allocation weights sum to 1 within 1e-9, a positive
minimum portfolio:margin ratio, and non-negative volatilities. The source has
no corresponding check anywhere. -/
def specValidConfig (c : DividendMarginMonteCarlo) : Prop :=
  |(bucket_names.map c.bucket_allocations).sum - 1| ≤ 1e-9 ∧
  0 < c.min_portfolio_margin_ratio ∧
  ∀ b ∈ bucket_names, 0 ≤ c.bucket_volatility b

/-- A configuration whose allocation weights sum to 0.95: the spec requires
rejecting it at construction time, but the class offers no constructor path
that validates (record update stands in for Python attribute assignment). -/
def invalidConfig : DividendMarginMonteCarlo :=
  { mcInit with
    bucket_allocations := fun b =>
      match b with
      | .drip_v2_cefs => 0.03
      | b2 => mcInit.bucket_allocations b2 }

/-- The built-in configuration with active management switched off. -/
def mcNoActive : DividendMarginMonteCarlo :=
  { mcInit with active_management := false }

/-- The built-in configuration with active management off and every bucket
target yield set to 0. -/
def cfgZeroYields : DividendMarginMonteCarlo :=
  { mcInit with active_management := false, bucket_yields := fun _ => 0 }

/-- A scenario in which every layer loses its full value every month. -/
def allNegReturns : ScenarioReturns where
  layer1_returns := fun _ => -1
  bucket_returns := fun _ _ => -1
  googl_returns := fun _ => -1
  hedge_returns := fun _ => -1
  market_returns := fun _ => -1

/-- The non-negativity invariant of a scenario walk: every layer value, the
margin balance, and every recorded monthly layer/margin entry are at least 0. -/
def InvState (s : SimState) : Prop :=
  0 ≤ s.layer1_portfolio ∧ 0 ≤ s.income_portfolio ∧ 0 ≤ s.googl_position ∧
  0 ≤ s.hedge_position ∧ 0 ≤ s.margin_balance ∧
  (∀ x ∈ s.monthly_layer1, 0 ≤ x) ∧ (∀ x ∈ s.monthly_layer2, 0 ≤ x) ∧
  (∀ x ∈ s.monthly_googl, 0 ≤ x) ∧ (∀ x ∈ s.monthly_hedge, 0 ≤ x) ∧
  (∀ x ∈ s.monthly_margin, 0 ≤ x)

/-- State after month 1 of the all-losses scenario: every layer is wiped to 0,
the margin balance (3222 + 4500 grown by one month of interest) is fully
injected away, and the backstop total is 62384751/8000. -/
def allNegState1 : SimState where
  layer1_portfolio := 0
  income_portfolio := 0
  googl_position := 0
  hedge_position := 0
  margin_balance := 0
  total_dividends_collected := 0
  max_drawdown := 0
  peak_total_value := 0
  margin_call_triggered := true
  backstop_used := true
  backstop_amount_used := 62384751/8000
  monthly_portfolio := [0]
  monthly_layer1 := [0]
  monthly_layer2 := [0]
  monthly_margin := [0]
  monthly_dividends := [0]
  monthly_googl := [0]
  monthly_hedge := [0]

/-- State after month 2 of the all-losses scenario. -/
def allNegState2 : SimState where
  layer1_portfolio := 0
  income_portfolio := 0
  googl_position := 0
  hedge_position := 0
  margin_balance := 0
  total_dividends_collected := 0
  max_drawdown := 0
  peak_total_value := 0
  margin_call_triggered := true
  backstop_used := true
  backstop_amount_used := 98739501/8000
  monthly_portfolio := [0, 0]
  monthly_layer1 := [0, 0]
  monthly_layer2 := [0, 0]
  monthly_margin := [0, 0]
  monthly_dividends := [0, 0]
  monthly_googl := [0, 0]
  monthly_hedge := [0, 0]

/-- State after month 3 of the all-losses scenario. -/
def allNegState3 : SimState where
  layer1_portfolio := 0
  income_portfolio := 0
  googl_position := 0
  hedge_position := 0
  margin_balance := 0
  total_dividends_collected := 0
  max_drawdown := 0
  peak_total_value := 0
  margin_call_triggered := true
  backstop_used := true
  backstop_amount_used := 135094251/8000
  monthly_portfolio := [0, 0, 0]
  monthly_layer1 := [0, 0, 0]
  monthly_layer2 := [0, 0, 0]
  monthly_margin := [0, 0, 0]
  monthly_dividends := [0, 0, 0]
  monthly_googl := [0, 0, 0]
  monthly_hedge := [0, 0, 0]

/-- State after month 4 of the all-losses scenario. -/
def allNegState4 : SimState where
  layer1_portfolio := 0
  income_portfolio := 0
  googl_position := 0
  hedge_position := 0
  margin_balance := 0
  total_dividends_collected := 0
  max_drawdown := 0
  peak_total_value := 0
  margin_call_triggered := true
  backstop_used := true
  backstop_amount_used := 171449001/8000
  monthly_portfolio := [0, 0, 0, 0]
  monthly_layer1 := [0, 0, 0, 0]
  monthly_layer2 := [0, 0, 0, 0]
  monthly_margin := [0, 0, 0, 0]
  monthly_dividends := [0, 0, 0, 0]
  monthly_googl := [0, 0, 0, 0]
  monthly_hedge := [0, 0, 0, 0]

/-- State after month 5 of the all-losses scenario: the backstop total,
207803751/8000 (about 25975), already exceeds the 22000 per-month cap. -/
def allNegState5 : SimState where
  layer1_portfolio := 0
  income_portfolio := 0
  googl_position := 0
  hedge_position := 0
  margin_balance := 0
  total_dividends_collected := 0
  max_drawdown := 0
  peak_total_value := 0
  margin_call_triggered := true
  backstop_used := true
  backstop_amount_used := 207803751/8000
  monthly_portfolio := [0, 0, 0, 0, 0]
  monthly_layer1 := [0, 0, 0, 0, 0]
  monthly_layer2 := [0, 0, 0, 0, 0]
  monthly_margin := [0, 0, 0, 0, 0]
  monthly_dividends := [0, 0, 0, 0, 0]
  monthly_googl := [0, 0, 0, 0, 0]
  monthly_hedge := [0, 0, 0, 0, 0]

/-! ### Helper lemmas -/

/-- The result record reuses the final state dividend series unchanged. -/
lemma scenario_result_monthly_dividends (c : DividendMarginMonteCarlo) (s : SimState) :
    (scenario_result c s).monthly_dividends = s.monthly_dividends := rfl

/-- The result record's break-even field is the scan over the recorded
dividend series. -/
lemma scenario_result_break_even (c : DividendMarginMonteCarlo) (s : SimState) :
    (scenario_result c s).break_even_month = find_break_even c s.monthly_dividends := rfl

/-- With active management off, `calculate_monthly_yield` is the bare linear
degradation formula. -/
lemma calc_yield_no_active (c : DividendMarginMonteCarlo) (h : c.active_management = false)
    (month : ℕ) :
    calculate_monthly_yield c month =
      target_yield c -
        target_yield c * c.yield_degradation_rate / (c.simulation_months : ℚ) *
          ((month : ℚ) - 1) := by
  simp only [calculate_monthly_yield, h, Bool.false_eq_true, false_and, if_false]
  ring_nf

/-! ### C1 -/

/-- C1: the spec demands that a configuration violating the invariants (here:
bucket weights summing to 0.95, outside the 1e-9 tolerance) be rejected with a
validation error at construction time. The source's `__init__` takes no
configuration input and contains no validation or `raise` at all, so no such
rejection exists: the engine computes normally on the invalid configuration
(`calculate_monthly_yield` returns the blended yield 0.195 at month 1 and the
margin schedule resolves as usual). -/
theorem C1_no_construction_time_validation :
    ¬ specValidConfig invalidConfig ∧
    (bucket_names.map invalidConfig.bucket_allocations).sum = 0.95 ∧
    calculate_monthly_yield invalidConfig 1 = 0.195 ∧
    get_margin_draw invalidConfig 1 = 4500 := by
  have hsum : (bucket_names.map invalidConfig.bucket_allocations).sum = 0.95 := by
    norm_num [invalidConfig, mcInit, bucket_names]
  refine ⟨?_, hsum, ?_, ?_⟩
  · rintro ⟨h1, -, -⟩
    rw [hsum, show ((0.95 : ℚ) - 1) = -(1/20) by norm_num, abs_neg,
      abs_of_nonneg (by norm_num : (0:ℚ) ≤ 1/20)] at h1
    norm_num at h1
  · norm_num [calculate_monthly_yield, target_yield, invalidConfig, mcInit, bucket_names]
  · norm_num [get_margin_draw, invalidConfig, mcInit, List.find?]

/-! ### C2 -/

/-- C2, counterexample: with active management disabled,
`calculate_monthly_yield` at month 28 does NOT equal
`target_yield * (1 - yield_degradation_rate)` (0.169575); the linear
degradation has only applied 27 of its 28 per-month decrements by month 28, so
the value is `target_yield * (1 - yield_degradation_rate * 27 / 28)`
(0.17064375). -/
theorem C2_month28_yield_counterexample :
    mcNoActive.active_management = false ∧
    calculate_monthly_yield mcNoActive 28 ≠
      target_yield mcNoActive * (1 - mcNoActive.yield_degradation_rate) ∧
    calculate_monthly_yield mcNoActive 28 =
      target_yield mcNoActive * (1 - mcNoActive.yield_degradation_rate * 27 / 28) := by
  have h28 : calculate_monthly_yield mcNoActive 28 = 0.17064375 := by
    norm_num [calculate_monthly_yield, target_yield, mcNoActive, mcInit, bucket_names]
  refine ⟨rfl, ?_, ?_⟩
  · rw [h28]
    norm_num [target_yield, mcNoActive, mcInit, bucket_names]
  · rw [h28]
    norm_num [target_yield, mcNoActive, mcInit, bucket_names]

/-- C2, amended: the base blended yield declines linearly from the start yield
at month 1 by `(start - end) / simulation_months` per month, where
`end = start * (1 - degradation_rate)`; month `m`'s yield is
`start - (m - 1) * start * degradation_rate / 28`, so month 28's yield is
`start * (1 - degradation_rate * 27 / 28)` — the claimed end yield
`start * (1 - degradation_rate)` would only be reached at a hypothetical
month 29. -/
theorem C2_yield_interpolation_amended (c : DividendMarginMonteCarlo)
    (h : c.active_management = false) (hm : c.simulation_months = 28) :
    (∀ month : ℕ, calculate_monthly_yield c month =
      target_yield c - target_yield c * c.yield_degradation_rate / 28 * ((month : ℚ) - 1)) ∧
    calculate_monthly_yield c 28 = target_yield c * (1 - c.yield_degradation_rate * 27 / 28) := by
  constructor
  · intro month
    rw [calc_yield_no_active c h month, hm]
    norm_num
  · rw [calc_yield_no_active c h 28, hm]
    push_cast
    ring

/-- C2, witness: the amended formula instantiated at the built-in
configuration with active management off, at month 28. -/
theorem C2_yield_interpolation_witness :
    calculate_monthly_yield mcNoActive 28 =
      target_yield mcNoActive * (1 - mcNoActive.yield_degradation_rate * 27 / 28) :=
  (C2_yield_interpolation_amended mcNoActive rfl rfl).2

/-! ### C5 -/

/-- C5, counterexample: at regime drift 1, market return 1 and bucket monthly
volatility 1, the fat-tail draw's mean (0.8) differs from the standard
correlated draw's mean (0.7), and its standard deviation (2.5) is not 2.5
times the standard draw's idiosyncratic standard deviation (2.5 x 0.3 = 0.75).
So the fat-tail distribution has neither the same mean as the standard
correlated draw nor 2.5 times its volatility. -/
theorem C5_fat_tail_counterexample :
    draw_mean (bucket_month_return 1 1 1 true) ≠ draw_mean (bucket_month_return 1 1 1 false) ∧
    draw_std (bucket_month_return 1 1 1 true) ≠ 2.5 * draw_std (bucket_month_return 1 1 1 false) := by
  constructor <;> norm_num [draw_mean, draw_std, bucket_month_return]

/-- C5, amended: with probability 5% per month (`np.random.random() < 0.05`)
the yieldmax bucket draws from `normal(market_drift * 0.8, bucket_vol * 2.5)` —
mean 0.8 times the regime's monthly drift (not the standard draw's mean) and
standard deviation 2.5 times the bucket's monthly volatility (the standard
draw's idiosyncratic standard deviation is 0.3 times that volatility) — and
otherwise from the standard correlated draw
`market_return * 0.7 + normal(0, bucket_vol * 0.3)`. -/
theorem C5_fat_tail_amended (market_drift market_ret bucket_vol : ℚ) :
    draw_mean (bucket_month_return market_drift market_ret bucket_vol true) = market_drift * 0.8 ∧
    draw_std (bucket_month_return market_drift market_ret bucket_vol true) = bucket_vol * 2.5 ∧
    draw_mean (bucket_month_return market_drift market_ret bucket_vol false) = market_ret * 0.7 ∧
    draw_std (bucket_month_return market_drift market_ret bucket_vol false) = bucket_vol * 0.3 ∧
    ∀ u : ℚ, fat_tail_fires u = true ↔ u < 0.05 := by
  refine ⟨?_, ?_, ?_, ?_, ?_⟩
  · norm_num [draw_mean, bucket_month_return]
  · norm_num [draw_std, bucket_month_return]
  · norm_num [draw_mean, bucket_month_return]
  · norm_num [draw_std, bucket_month_return]
  · intro u
    simp [fat_tail_fires]

/-! ### C8 -/

/-- C8, counterexample: a configuration with degradation rate 0.15 > 0 and
active management disabled but all bucket target yields 0 has blended yield 0
at every month, so the month-28 yield is not strictly below the month-1
yield. -/
theorem C8_zero_yield_counterexample :
    cfgZeroYields.active_management = false ∧
    0 < cfgZeroYields.yield_degradation_rate ∧
    ¬(calculate_monthly_yield cfgZeroYields 28 < calculate_monthly_yield cfgZeroYields 1) := by
  have h1 : calculate_monthly_yield cfgZeroYields 28 = 0 := by
    norm_num [calculate_monthly_yield, target_yield, cfgZeroYields, mcInit, bucket_names]
  have h2 : calculate_monthly_yield cfgZeroYields 1 = 0 := by
    norm_num [calculate_monthly_yield, target_yield, cfgZeroYields, mcInit, bucket_names]
  refine ⟨rfl, by norm_num [cfgZeroYields, mcInit], ?_⟩
  rw [h1, h2]
  norm_num

/-- C8, amended: for every configuration with a positive degradation rate,
active management disabled, a positive blended start yield and a positive
horizon, the blended yield at month 28 is strictly below the yield at
month 1. -/
theorem C8_monotonic_degradation_amended (c : DividendMarginMonteCarlo)
    (h1 : c.active_management = false) (h2 : 0 < c.yield_degradation_rate)
    (h3 : 0 < target_yield c) (h4 : 0 < c.simulation_months) :
    calculate_monthly_yield c 28 < calculate_monthly_yield c 1 := by
  rw [calc_yield_no_active c h1 28, calc_yield_no_active c h1 1]
  have hN : (0:ℚ) < (c.simulation_months : ℚ) := by exact_mod_cast h4
  have hpos : 0 < target_yield c * c.yield_degradation_rate / (c.simulation_months : ℚ) :=
    div_pos (mul_pos h3 h2) hN
  have h27 : (0:ℚ) <
      target_yield c * c.yield_degradation_rate / (c.simulation_months : ℚ) * ((28:ℚ) - 1) :=
    mul_pos hpos (by norm_num)
  push_cast
  linarith

/-- C8, witness: the built-in configuration with active management switched
off satisfies all hypotheses (degradation rate 0.15, blended yield 0.1995,
horizon 28). -/
theorem C8_monotonic_degradation_witness :
    calculate_monthly_yield mcNoActive 28 < calculate_monthly_yield mcNoActive 1 :=
  C8_monotonic_degradation_amended mcNoActive rfl
    (by norm_num [mcNoActive, mcInit])
    (by norm_num [target_yield, mcNoActive, mcInit, bucket_names])
    (by norm_num [mcNoActive, mcInit])

/-! ### C4 -/

/-- C4: `month_step` runs `safety_check` on the post-interest balance. In a
month where the balance is positive and `total_portfolio_value / margin_balance`
is below the configured minimum ratio, the check sets the margin-call flag,
injects exactly `min(business_income_backstop, margin_balance)`, reduces the
balance by exactly that injection and adds exactly that injection to the
running backstop-used total; when the ratio is at or above the minimum, or the
balance is 0, the flags, the balance and the running total are all left
unchanged. -/
theorem C4_margin_call_backstop_injection (c : DividendMarginMonteCarlo)
    (v mb amt : ℚ) (mc bu : Bool) :
    (0 < mb → v / mb < c.min_portfolio_margin_ratio →
      safety_check c v mb mc bu amt =
        { margin_call_triggered := true
          backstop_used := true
          margin_balance := mb - min c.business_income_backstop mb
          backstop_amount_used := amt + min c.business_income_backstop mb }) ∧
    (0 < mb → c.min_portfolio_margin_ratio ≤ v / mb →
      safety_check c v mb mc bu amt =
        { margin_call_triggered := mc
          backstop_used := bu
          margin_balance := mb
          backstop_amount_used := amt }) ∧
    (mb = 0 →
      safety_check c v mb mc bu amt =
        { margin_call_triggered := mc
          backstop_used := bu
          margin_balance := mb
          backstop_amount_used := amt }) := by
  refine ⟨?_, ?_, ?_⟩
  · intro hpos hlt
    rw [safety_check, if_pos ⟨hpos, hlt⟩]
  · intro hpos hge
    rw [safety_check, if_neg]
    rintro ⟨-, hlt⟩
    exact absurd hge (not_le.mpr hlt)
  · intro h0
    rw [safety_check, if_neg]
    rintro ⟨hpos, -⟩
    rw [h0] at hpos
    exact lt_irrefl 0 hpos

/-- C4, witness: the spec's own test point — portfolio value 10000 against a
balance of 4000 (ratio 2.5, below the built-in minimum of 3.0) triggers the
injection branch, injecting min(22000, 4000) = 4000. -/
theorem C4_margin_call_backstop_witness :
    safety_check mcInit 10000 4000 false false 0 =
      { margin_call_triggered := true
        backstop_used := true
        margin_balance := 4000 - min mcInit.business_income_backstop 4000
        backstop_amount_used := 0 + min mcInit.business_income_backstop 4000 } :=
  (C4_margin_call_backstop_injection mcInit 10000 4000 0 false false).1
    (by norm_num) (by norm_num [mcInit])

/-- `apply_layer_return` keeps a non-negative layer non-negative. -/
lemma apply_layer_return_nonneg (value ret : ℚ) (h : 0 ≤ value) :
    0 ≤ apply_layer_return value ret := by
  unfold apply_layer_return
  split_ifs
  · exact le_max_left 0 _
  · exact h

/-- The draw/paydown step keeps a non-negative balance non-negative. -/
lemma margin_draw_update_nonneg (mb d w : ℚ) (h : 0 ≤ mb) :
    0 ≤ margin_draw_update mb d w := by
  unfold margin_draw_update
  split_ifs with hc
  · linarith
  · exact le_max_left 0 _

/-- Interest accrual at a non-negative monthly rate keeps a non-negative
balance non-negative. -/
lemma margin_interest_update_nonneg (c : DividendMarginMonteCarlo)
    (hc : 0 ≤ margin_monthly_rate c) (mb : ℚ) (h : 0 ≤ mb) :
    0 ≤ margin_interest_update c mb := by
  unfold margin_interest_update
  split_ifs with hp
  · nlinarith
  · exact h

/-- The safety check never drives the balance negative: the injection is
capped at the balance itself. -/
lemma safety_check_margin_nonneg (c : DividendMarginMonteCarlo)
    (v mb amt : ℚ) (mc bu : Bool) (h : 0 ≤ mb) :
    0 ≤ (safety_check c v mb mc bu amt).margin_balance := by
  unfold safety_check
  split_ifs
  · simp only
    rw [sub_nonneg]
    exact min_le_right _ _
  · exact h

/-- With a non-negative backstop cap, the safety check never decreases the
running backstop-used total. -/
lemma safety_check_amount_mono (c : DividendMarginMonteCarlo)
    (hb : 0 ≤ c.business_income_backstop) (v mb amt : ℚ) (mc bu : Bool) (h : 0 ≤ mb) :
    amt ≤ (safety_check c v mb mc bu amt).backstop_amount_used := by
  unfold safety_check
  split_ifs with hc
  · simp only
    have : 0 ≤ min c.business_income_backstop mb := le_min hb h
    linarith
  · exact le_refl amt

/-- The safety check never clears the backstop-used flag. -/
lemma safety_check_flag (c : DividendMarginMonteCarlo)
    (v mb amt : ℚ) (mc bu : Bool) (h : bu = true) :
    (safety_check c v mb mc bu amt).backstop_used = true := by
  unfold safety_check
  split_ifs <;> simp [h]

/-- The safety check sets both flags together, so it preserves their
equality. -/
lemma safety_check_flags_eq (c : DividendMarginMonteCarlo)
    (v mb amt : ℚ) (mc bu : Bool) (h : mc = bu) :
    (safety_check c v mb mc bu amt).margin_call_triggered =
      (safety_check c v mb mc bu amt).backstop_used := by
  unfold safety_check
  split_ifs <;> simp [h]

/-- Appending one non-negative value preserves list-wide non-negativity. -/
lemma forall_append_singleton {l : List ℚ} {v : ℚ}
    (hl : ∀ x ∈ l, 0 ≤ x) (hv : 0 ≤ v) : ∀ x ∈ l ++ [v], 0 ≤ x := by
  intro x hx
  rcases List.mem_append.mp hx with h | h
  · exact hl x h
  · rw [List.mem_singleton] at h
    exact h ▸ hv

/-- One month of the walk under the built-in configuration preserves the
non-negativity invariant. -/
lemma month_step_inv (r : ScenarioReturns) (month : ℕ) (s : SimState)
    (h : InvState s) : InvState (month_step mcInit r month s) := by
  obtain ⟨h1, h2, h3, h4, h5, l1, l2, l3, l4, l5⟩ := h
  have hd2 : (0:ℚ) ≤ s.income_portfolio + mcInit.layer2_deployment := by
    have : (0:ℚ) ≤ mcInit.layer2_deployment := by norm_num [mcInit]
    linarith
  have hd3 : (0:ℚ) ≤ s.googl_position + mcInit.googl_monthly_diversion := by
    have : (0:ℚ) ≤ mcInit.googl_monthly_diversion := by norm_num [mcInit]
    linarith
  have hd4 : (0:ℚ) ≤ s.hedge_position + mcInit.layer3_deployment := by
    have : (0:ℚ) ≤ mcInit.layer3_deployment := by norm_num [mcInit]
    linarith
  have hrate : (0:ℚ) ≤ margin_monthly_rate mcInit := by
    norm_num [margin_monthly_rate, mcInit]
  have hmb : 0 ≤ margin_interest_update mcInit
      (margin_draw_update s.margin_balance
        (apply_layer_return (s.income_portfolio + mcInit.layer2_deployment)
            ((bucket_names.map
              (fun b => mcInit.bucket_allocations b * r.bucket_returns (month - 1) b)).sum) *
          (calculate_monthly_yield mcInit month / 12))
        (get_margin_draw mcInit month)) :=
    margin_interest_update_nonneg mcInit hrate _
      (margin_draw_update_nonneg _ _ _ h5)
  unfold InvState month_step
  refine ⟨?_, ?_, ?_, ?_, ?_, ?_, ?_, ?_, ?_, ?_⟩
  · exact apply_layer_return_nonneg _ _ h1
  · exact apply_layer_return_nonneg _ _ hd2
  · exact apply_layer_return_nonneg _ _ hd3
  · exact apply_layer_return_nonneg _ _ hd4
  · exact safety_check_margin_nonneg _ _ _ _ _ _ hmb
  · exact forall_append_singleton l1 (apply_layer_return_nonneg _ _ h1)
  · exact forall_append_singleton l2 (apply_layer_return_nonneg _ _ hd2)
  · exact forall_append_singleton l3 (apply_layer_return_nonneg _ _ hd3)
  · exact forall_append_singleton l4 (apply_layer_return_nonneg _ _ hd4)
  · exact forall_append_singleton l5 (safety_check_margin_nonneg _ _ _ _ _ _ hmb)

/-- The invariant holds at the start of every scenario. -/
lemma init_inv : InvState initState := by
  unfold InvState initState
  refine ⟨by norm_num, by norm_num, by norm_num, by norm_num, by norm_num,
    ?_, ?_, ?_, ?_, ?_⟩ <;> simp

/-- The invariant is preserved across any list of months. -/
lemma run_fold_inv (r : ScenarioReturns) :
    ∀ (l : List ℕ) (s : SimState), InvState s →
      InvState (l.foldl (fun s month => month_step mcInit r month s) s) := by
  intro l
  induction l with
  | nil => intro s h; simpa using h
  | cons m rest ih =>
    intro s h
    rw [List.foldl_cons]
    exact ih _ (month_step_inv r m s h)

/-- Month 1 of the all-losses scenario, evaluated. -/
lemma allNeg_step1 : month_step mcInit allNegReturns 1 initState = allNegState1 := by
  norm_num [month_step, apply_layer_return, margin_draw_update, margin_interest_update,
    safety_check, drawdown_update, get_margin_draw, margin_monthly_rate,
    mcInit, bucket_names, allNegReturns, initState, allNegState1, min_def, max_def, List.find?]

/-- Month 2 of the all-losses scenario, evaluated. -/
lemma allNeg_step2 : month_step mcInit allNegReturns 2 allNegState1 = allNegState2 := by
  norm_num [month_step, apply_layer_return, margin_draw_update, margin_interest_update,
    safety_check, drawdown_update, get_margin_draw, margin_monthly_rate,
    mcInit, bucket_names, allNegReturns, allNegState1, allNegState2, min_def, max_def,
    List.find?]

/-- Month 3 of the all-losses scenario, evaluated. -/
lemma allNeg_step3 : month_step mcInit allNegReturns 3 allNegState2 = allNegState3 := by
  norm_num [month_step, apply_layer_return, margin_draw_update, margin_interest_update,
    safety_check, drawdown_update, get_margin_draw, margin_monthly_rate,
    mcInit, bucket_names, allNegReturns, allNegState2, allNegState3, min_def, max_def,
    List.find?]

/-- Month 4 of the all-losses scenario, evaluated. -/
lemma allNeg_step4 : month_step mcInit allNegReturns 4 allNegState3 = allNegState4 := by
  norm_num [month_step, apply_layer_return, margin_draw_update, margin_interest_update,
    safety_check, drawdown_update, get_margin_draw, margin_monthly_rate,
    mcInit, bucket_names, allNegReturns, allNegState3, allNegState4, min_def, max_def,
    List.find?]

/-- Month 5 of the all-losses scenario, evaluated. -/
lemma allNeg_step5 : month_step mcInit allNegReturns 5 allNegState4 = allNegState5 := by
  norm_num [month_step, apply_layer_return, margin_draw_update, margin_interest_update,
    safety_check, drawdown_update, get_margin_draw, margin_monthly_rate,
    mcInit, bucket_names, allNegReturns, allNegState4, allNegState5, min_def, max_def,
    List.find?]

/-- The invariant holds after month 5 of the all-losses scenario. -/
lemma allNegState5_inv : InvState allNegState5 := by
  unfold InvState allNegState5
  refine ⟨by norm_num, by norm_num, by norm_num, by norm_num, by norm_num,
    ?_, ?_, ?_, ?_, ?_⟩ <;>
    · intro x hx
      simp only [List.mem_cons, List.not_mem_nil, or_false] at hx
      rcases hx with rfl | rfl | rfl | rfl | rfl <;> norm_num

/-- One month of the walk never decreases the running backstop total. -/
lemma month_step_amount_mono (r : ScenarioReturns) (month : ℕ) (s : SimState)
    (h : InvState s) :
    s.backstop_amount_used ≤ (month_step mcInit r month s).backstop_amount_used := by
  obtain ⟨-, -, -, -, h5, -, -, -, -, -⟩ := h
  have hrate : (0:ℚ) ≤ margin_monthly_rate mcInit := by
    norm_num [margin_monthly_rate, mcInit]
  have hb : (0:ℚ) ≤ mcInit.business_income_backstop := by norm_num [mcInit]
  unfold month_step
  exact safety_check_amount_mono mcInit hb _ _ _ _ _
    (margin_interest_update_nonneg mcInit hrate _ (margin_draw_update_nonneg _ _ _ h5))

/-- The running backstop total never decreases across any list of months. -/
lemma run_fold_amount (r : ScenarioReturns) :
    ∀ (l : List ℕ) (s : SimState), InvState s →
      s.backstop_amount_used ≤
        (l.foldl (fun s month => month_step mcInit r month s) s).backstop_amount_used := by
  intro l
  induction l with
  | nil => intro s h; simp
  | cons m rest ih =>
    intro s h
    rw [List.foldl_cons]
    exact le_trans (month_step_amount_mono r m s h) (ih _ (month_step_inv r m s h))

/-- One month of the walk never clears the backstop-used flag. -/
lemma month_step_flag (c : DividendMarginMonteCarlo) (r : ScenarioReturns) (month : ℕ)
    (s : SimState) (h : s.backstop_used = true) :
    (month_step c r month s).backstop_used = true := by
  unfold month_step
  exact safety_check_flag c _ _ _ _ _ h

/-- The backstop-used flag stays set across any list of months. -/
lemma run_fold_flag (c : DividendMarginMonteCarlo) (r : ScenarioReturns) :
    ∀ (l : List ℕ) (s : SimState), s.backstop_used = true →
      (l.foldl (fun s month => month_step c r month s) s).backstop_used = true := by
  intro l
  induction l with
  | nil => intro s h; simpa using h
  | cons m rest ih =>
    intro s h
    rw [List.foldl_cons]
    exact ih _ (month_step_flag c r m s h)

/-- One month of the walk preserves equality of the two event flags. -/
lemma month_step_flags_eq (c : DividendMarginMonteCarlo) (r : ScenarioReturns) (month : ℕ)
    (s : SimState) (h : s.margin_call_triggered = s.backstop_used) :
    (month_step c r month s).margin_call_triggered = (month_step c r month s).backstop_used := by
  unfold month_step
  exact safety_check_flags_eq c _ _ _ _ _ h

/-- Equality of the two event flags is preserved across any list of months. -/
lemma run_fold_flags_eq (c : DividendMarginMonteCarlo) (r : ScenarioReturns) :
    ∀ (l : List ℕ) (s : SimState), s.margin_call_triggered = s.backstop_used →
      (l.foldl (fun s month => month_step c r month s) s).margin_call_triggered =
        (l.foldl (fun s month => month_step c r month s) s).backstop_used := by
  intro l
  induction l with
  | nil => intro s h; simpa using h
  | cons m rest ih =>
    intro s h
    rw [List.foldl_cons]
    exact ih _ (month_step_flags_eq c r m s h)

/-! ### C3 -/

/-- C3: for every scenario-returns input — including arbitrarily negative
monthly returns — every recorded monthly value of each of the four layers and
of the margin balance is non-negative, and so are the final layer values and
the final margin balance: the floors of steps 2 and 5 and the capped injection
of step 7 keep every balance at or above 0 throughout the walk. -/
theorem C3_layers_and_margin_nonneg (r : ScenarioReturns) :
    (∀ x ∈ (run_single_scenario mcInit r).monthly_layer1, 0 ≤ x) ∧
    (∀ x ∈ (run_single_scenario mcInit r).monthly_layer2, 0 ≤ x) ∧
    (∀ x ∈ (run_single_scenario mcInit r).monthly_googl, 0 ≤ x) ∧
    (∀ x ∈ (run_single_scenario mcInit r).monthly_hedge, 0 ≤ x) ∧
    (∀ x ∈ (run_single_scenario mcInit r).monthly_margin, 0 ≤ x) ∧
    0 ≤ (run_single_scenario mcInit r).final_layer1_value ∧
    0 ≤ (run_single_scenario mcInit r).final_income_portfolio ∧
    0 ≤ (run_single_scenario mcInit r).final_googl_value ∧
    0 ≤ (run_single_scenario mcInit r).final_hedge_value ∧
    0 ≤ (run_single_scenario mcInit r).final_margin_balance := by
  have h : InvState (run_months mcInit r) :=
    run_fold_inv r (List.range' 1 mcInit.simulation_months) initState init_inv
  obtain ⟨a1, a2, a3, a4, a5, b1, b2, b3, b4, b5⟩ := h
  exact ⟨b1, b2, b3, b4, b5, a1, a2, a3, a4, a5⟩

/-! ### C9 -/

/-- C9: in every result of `run_single_scenario`, the margin-call flag and
the backstop-used flag are equal — both start false and the safety check is
the only place either is written, setting both to true together. -/
theorem C9_flags_agree (c : DividendMarginMonteCarlo) (r : ScenarioReturns) :
    (run_single_scenario c r).margin_call_triggered =
      (run_single_scenario c r).backstop_used := by
  have h : (run_months c r).margin_call_triggered = (run_months c r).backstop_used :=
    run_fold_flags_eq c r (List.range' 1 c.simulation_months) initState rfl
  exact h

/-! ### C10 -/

/-- C10: the backstop cap bounds each month's injection but not the scenario
total. In the all-losses scenario the minimum ratio is breached every month,
and the reported `backstop_amount_used` already exceeds the 22000 cap
(`business_income_backstop`) by month 5 — the final total is at least
207803751/8000, about 25975. -/
theorem C10_backstop_total_exceeds_cap :
    (run_single_scenario mcInit allNegReturns).backstop_used = true ∧
    mcInit.business_income_backstop <
      (run_single_scenario mcInit allNegReturns).backstop_amount_used := by
  have hsplit : List.range' 1 mcInit.simulation_months = List.range' 1 5 ++ List.range' 6 23 := by
    decide
  have h5 : (List.range' 1 5).foldl
      (fun s month => month_step mcInit allNegReturns month s) initState = allNegState5 := by
    rw [show List.range' 1 5 = [1, 2, 3, 4, 5] from by decide]
    simp only [List.foldl_cons, List.foldl_nil]
    rw [allNeg_step1, allNeg_step2, allNeg_step3, allNeg_step4, allNeg_step5]
  have e : run_months mcInit allNegReturns =
      (List.range' 6 23).foldl
        (fun s month => month_step mcInit allNegReturns month s) allNegState5 := by
    unfold run_months
    rw [hsplit, List.foldl_append, h5]
  constructor
  · have h : (run_months mcInit allNegReturns).backstop_used = true := by
      rw [e]
      exact run_fold_flag mcInit allNegReturns (List.range' 6 23) allNegState5 rfl
    exact h
  · have hmono := run_fold_amount allNegReturns (List.range' 6 23) allNegState5 allNegState5_inv
    have hval : mcInit.business_income_backstop < allNegState5.backstop_amount_used := by
      norm_num [mcInit, allNegState5]
    have h : mcInit.business_income_backstop <
        (run_months mcInit allNegReturns).backstop_amount_used := by
      rw [e]
      exact lt_of_lt_of_le hval hmono
    exact h

/-- A recorded margin entry survives later months (each month only appends). -/
lemma month_step_mem_margin (c : DividendMarginMonteCarlo) (r : ScenarioReturns)
    (month : ℕ) (s : SimState) (x : ℚ) (hx : x ∈ s.monthly_margin) :
    x ∈ (month_step c r month s).monthly_margin := by
  unfold month_step
  exact List.mem_append_left _ hx

/-- A recorded margin entry survives any list of later months. -/
lemma run_fold_mem_margin (c : DividendMarginMonteCarlo) (r : ScenarioReturns) :
    ∀ (l : List ℕ) (s : SimState) (x : ℚ), x ∈ s.monthly_margin →
      x ∈ (l.foldl (fun s month => month_step c r month s) s).monthly_margin := by
  intro l
  induction l with
  | nil => intro s x hx; simpa using hx
  | cons m rest ih =>
    intro s x hx
    rw [List.foldl_cons]
    exact ih _ x (month_step_mem_margin c r m s x hx)

/-- C3, witness: in the all-losses scenario the month-1 recorded margin
balance is 0, and the theorem instantiated there yields its non-negativity. -/
theorem C3_layers_and_margin_nonneg_witness :
    (0:ℚ) ∈ (run_single_scenario mcInit allNegReturns).monthly_margin ∧ (0:ℚ) ≤ 0 := by
  have hsplit : List.range' 1 mcInit.simulation_months = [1] ++ List.range' 2 27 := by decide
  have h1 : ([1] : List ℕ).foldl
      (fun s month => month_step mcInit allNegReturns month s) initState = allNegState1 := by
    simp only [List.foldl_cons, List.foldl_nil]
    exact allNeg_step1
  have hm : (0:ℚ) ∈ (run_months mcInit allNegReturns).monthly_margin := by
    unfold run_months
    rw [hsplit, List.foldl_append, h1]
    exact run_fold_mem_margin mcInit allNegReturns (List.range' 2 27) allNegState1 0
      (by simp [allNegState1])
  exact ⟨hm, (C3_layers_and_margin_nonneg allNegReturns).2.2.2.2.1 0 hm⟩

/-! ### C6 -/

/-- If the break-even scan started at offset `i` reports month `m`, then `m`
is in range, month `m`'s dividend covers its draw, and every earlier scanned
month's dividend falls short of its draw. -/
lemma find_break_even_aux_some (c : DividendMarginMonteCarlo) :
    ∀ (divs : List ℚ) (i m : ℕ), find_break_even_aux c i divs = some m →
      i + 1 ≤ m ∧ m ≤ i + divs.length ∧
      get_margin_draw c m ≤ divs.getD (m - i - 1) 0 ∧
      ∀ k, i + 1 ≤ k → k < m → divs.getD (k - i - 1) 0 < get_margin_draw c k := by
  intro divs
  induction divs with
  | nil => intro i m h; simp [find_break_even_aux] at h
  | cons d rest ih =>
    intro i m h
    simp only [find_break_even_aux] at h
    split_ifs at h with hd
    · have hm : m = i + 1 := by
        injection h with h2
        omega
      subst hm
      refine ⟨le_refl _, by simp, ?_, ?_⟩
      · have e : i + 1 - i - 1 = 0 := by omega
        rw [e, List.getD_cons_zero]
        exact hd
      · intro k hk1 hk2
        omega
    · obtain ⟨g1, g2, g3, g4⟩ := ih (i + 1) m h
      refine ⟨by omega, by simp only [List.length_cons]; omega, ?_, ?_⟩
      · have e : m - i - 1 = (m - (i + 1) - 1) + 1 := by omega
        rw [e, List.getD_cons_succ]
        exact g3
      · intro k hk1 hk2
        by_cases hke : k = i + 1
        · subst hke
          have e : i + 1 - i - 1 = 0 := by omega
          rw [e, List.getD_cons_zero]
          exact lt_of_not_le hd
        · have e : k - i - 1 = (k - (i + 1) - 1) + 1 := by omega
          rw [e, List.getD_cons_succ]
          exact g4 k (by omega) hk2

/-- If the break-even scan started at offset `i` reports nothing, every
scanned month's dividend falls short of its draw. -/
lemma find_break_even_aux_none (c : DividendMarginMonteCarlo) :
    ∀ (divs : List ℚ) (i : ℕ), find_break_even_aux c i divs = none →
      ∀ m, i + 1 ≤ m → m ≤ i + divs.length →
        divs.getD (m - i - 1) 0 < get_margin_draw c m := by
  intro divs
  induction divs with
  | nil =>
    intro i h m hm1 hm2
    simp only [List.length_nil, Nat.add_zero] at hm2
    exact absurd hm1 (by omega)
  | cons d rest ih =>
    intro i h m hm1 hm2
    simp only [find_break_even_aux] at h
    split_ifs at h with hd
    by_cases hme : m = i + 1
    · subst hme
      have e : i + 1 - i - 1 = 0 := by omega
      rw [e, List.getD_cons_zero]
      exact lt_of_not_le hd
    · have e : m - i - 1 = (m - (i + 1) - 1) + 1 := by omega
      rw [e, List.getD_cons_succ]
      exact ih (i + 1) h m (by omega)
        (by simp only [List.length_cons] at hm2; omega)

/-- Each month appends exactly one dividend entry. -/
lemma month_step_dividends_length (c : DividendMarginMonteCarlo) (r : ScenarioReturns)
    (month : ℕ) (s : SimState) :
    (month_step c r month s).monthly_dividends.length = s.monthly_dividends.length + 1 := by
  unfold month_step
  simp

/-- The recorded dividend series has one entry per simulated month. -/
lemma run_fold_dividends_length (c : DividendMarginMonteCarlo) (r : ScenarioReturns) :
    ∀ (l : List ℕ) (s : SimState),
      ((l.foldl (fun s month => month_step c r month s) s).monthly_dividends).length =
        s.monthly_dividends.length + l.length := by
  intro l
  induction l with
  | nil => intro s; simp
  | cons m rest ih =>
    intro s
    rw [List.foldl_cons, ih, month_step_dividends_length]
    simp only [List.length_cons]
    omega

/-- C6: the reported `break_even_month` is the break-even scan over the
28-entry recorded dividend series; whenever the scan reports month `m`, `m`
lies in 1..length, month `m`'s dividend covers that month's scheduled draw and
every earlier month's dividend falls short (so `m` is the lowest such month);
when it reports nothing, no month qualifies. The spec's concrete cases hold:
a constant 5000 dividend against the schedule (4500 in months 1-6) breaks
even at month 1, and a constant 100 dividend never breaks even. -/
theorem C6_break_even_characterization :
    (∀ r : ScenarioReturns,
      (run_single_scenario mcInit r).monthly_dividends.length = 28 ∧
      (run_single_scenario mcInit r).break_even_month =
        find_break_even mcInit (run_single_scenario mcInit r).monthly_dividends) ∧
    (∀ (divs : List ℚ) (m : ℕ), find_break_even mcInit divs = some m →
      1 ≤ m ∧ m ≤ divs.length ∧ get_margin_draw mcInit m ≤ divs.getD (m - 1) 0 ∧
      ∀ k, 1 ≤ k → k < m → divs.getD (k - 1) 0 < get_margin_draw mcInit k) ∧
    (∀ divs : List ℚ, find_break_even mcInit divs = none →
      ∀ m, 1 ≤ m → m ≤ divs.length → divs.getD (m - 1) 0 < get_margin_draw mcInit m) ∧
    find_break_even mcInit (List.replicate 28 5000) = some 1 ∧
    find_break_even mcInit (List.replicate 28 100) = none := by
  refine ⟨?_, ?_, ?_, ?_, ?_⟩
  · intro r
    have h4 : (run_single_scenario mcInit r).monthly_dividends =
        (run_months mcInit r).monthly_dividends :=
      scenario_result_monthly_dividends mcInit (run_months mcInit r)
    constructor
    · have h2 := run_fold_dividends_length mcInit r
        (List.range' 1 mcInit.simulation_months) initState
      rw [List.length_range'] at h2
      rw [h4]
      exact h2
    · have h5 : (run_single_scenario mcInit r).break_even_month =
          find_break_even mcInit ((run_months mcInit r).monthly_dividends) :=
        scenario_result_break_even mcInit (run_months mcInit r)
      rw [h5, h4]
  · intro divs m h
    obtain ⟨g1, g2, g3, g4⟩ := find_break_even_aux_some mcInit divs 0 m h
    refine ⟨g1, by simpa using g2, by simpa using g3, ?_⟩
    intro k hk1 hk2
    have := g4 k (by omega) hk2
    simpa using this
  · intro divs h m hm1 hm2
    have := find_break_even_aux_none mcInit divs 0 h m (by omega) (by simpa using hm2)
    simpa using this
  · norm_num [find_break_even, find_break_even_aux, get_margin_draw, mcInit,
      List.replicate, List.find?]
  · norm_num [find_break_even, find_break_even_aux, get_margin_draw, mcInit,
      List.replicate, List.find?]

/-- C6, witness: the some-case characterization instantiated at the constant
5000 dividend series, whose scan result (month 1) is supplied by the
theorem's own concrete conjunct. -/
theorem C6_break_even_witness :
    1 ≤ 1 ∧ 1 ≤ (List.replicate 28 (5000:ℚ)).length ∧
    get_margin_draw mcInit 1 ≤ (List.replicate 28 (5000:ℚ)).getD (1 - 1) 0 ∧
    ∀ k, 1 ≤ k → k < 1 →
      (List.replicate 28 (5000:ℚ)).getD (k - 1) 0 < get_margin_draw mcInit k :=
  C6_break_even_characterization.2.1 (List.replicate 28 5000) 1
    C6_break_even_characterization.2.2.2.1

/-! ### C7 -/

/-- C7: for every list of scenario records, each reported income-success
probability is the exact sample proportion — the number of records whose
`final_annual_dividend` meets the threshold divided by the number of
records. -/
theorem C7_income_probabilities (rs : List ScenarioResult) (h : rs ≠ []) :
    probability_50k_income rs =
      ((rs.filter fun row => decide (50000 ≤ row.final_annual_dividend)).length : ℚ) /
        (rs.length : ℚ) ∧
    probability_75k_income rs =
      ((rs.filter fun row => decide (75000 ≤ row.final_annual_dividend)).length : ℚ) /
        (rs.length : ℚ) ∧
    probability_100k_income rs =
      ((rs.filter fun row => decide (100000 ≤ row.final_annual_dividend)).length : ℚ) /
        (rs.length : ℚ) := by
  unfold probability_50k_income probability_75k_income probability_100k_income
  rw [List.countP_eq_length_filter, List.countP_eq_length_filter,
    List.countP_eq_length_filter]
  exact ⟨rfl, rfl, rfl⟩

/-- C7, witness: the proportions instantiated at a concrete non-empty record
list (the all-losses scenario's result). -/
theorem C7_income_probabilities_witness :
    probability_50k_income [run_single_scenario mcInit allNegReturns] =
      (([run_single_scenario mcInit allNegReturns].filter
          fun row => decide (50000 ≤ row.final_annual_dividend)).length : ℚ) /
        (([run_single_scenario mcInit allNegReturns] : List ScenarioResult).length : ℚ) ∧
    probability_75k_income [run_single_scenario mcInit allNegReturns] =
      (([run_single_scenario mcInit allNegReturns].filter
          fun row => decide (75000 ≤ row.final_annual_dividend)).length : ℚ) /
        (([run_single_scenario mcInit allNegReturns] : List ScenarioResult).length : ℚ) ∧
    probability_100k_income [run_single_scenario mcInit allNegReturns] =
      (([run_single_scenario mcInit allNegReturns].filter
          fun row => decide (100000 ≤ row.final_annual_dividend)).length : ℚ) /
        (([run_single_scenario mcInit allNegReturns] : List ScenarioResult).length : ℚ) :=
  C7_income_probabilities [run_single_scenario mcInit allNegReturns] (by simp)
